import Mathlib

/-!
Verification of the ranking engine (src/ranking_engine).

The Python package is a pure computational core: configuration constants
(config.py), data models (models.py), per-block scoring (scoring.py),
weight redistribution for empty blocks (weights.py) and the top-level
ranking pipeline (ranking.py).  Python floats are modelled as exact
rationals; Python ints as Lean Int/Nat; dataclasses as structures.
-/

namespace RankingEngine

/-! ### config.py -/

/-- Category thresholds (config.py): High (green) >= 70, Partial (yellow) 30 to 69. -/
def GREEN_THRESHOLD : Int := 70

def YELLOW_THRESHOLD : Int := 30

/-- Category contribution weights (config.py). -/
def GREEN_WEIGHT : ℚ := 1

def YELLOW_WEIGHT : ℚ := 1/2

def RED_WEIGHT : ℚ := 1/100

/-- Default block weights (config.py). -/
def MANDATORY_WEIGHT : ℚ := 1

def PREFERRED_WEIGHT : ℚ := 1/5

def TASKS_WEIGHT : ℚ := 1/5

/-- Numerical tolerance for comparing scores in sorting (config.py). -/
def EPSILON : ℚ := 1/1000000

/-! ### models.py -/

/-- BlockType enum (models.py): the three logical blocks of criteria. -/
inductive BlockType where
  | mandatory
  | preferred
  | tasks
deriving DecidableEq, Repr

/-- Requirement dataclass (models.py): atomic criterion within a block. -/
structure Requirement where
  name : String
  match_percent : Int
  evidence : String := ""
  difference_comment : String := ""
deriving DecidableEq, Repr

/-- RequirementDetail dataclass (models.py): normalised per-requirement record. -/
structure RequirementDetail where
  name : String
  percent : Int
  color : String
  evidence : String
  comment : String
deriving DecidableEq, Repr

/-- BlockScore dataclass (models.py): score for a single block of criteria. -/
structure BlockScore where
  color_score : ℚ
  percent_score : ℚ
  g : Nat
  y : Nat
  r : Nat
  details : List RequirementDetail := []
  g_avg : ℚ := 0
  y_avg : ℚ := 0
  r_avg : ℚ := 0
deriving DecidableEq, Repr

/-- Effective block weights: the Dict keyed by the three BlockType values
returned by redistribute_weights (weights.py). -/
structure Weights where
  mandatory : ℚ
  preferred : ℚ
  tasks : ℚ
deriving DecidableEq, Repr

/-- ItemInput dataclass (models.py).  The metadata payload is never
interpreted anywhere in the core and is omitted. -/
structure ItemInput where
  item_id : String
  mandatory : List Requirement := []
  preferred : List Requirement := []
  tasks : List Requirement := []
deriving DecidableEq, Repr

/-- ItemScore dataclass (models.py): full scoring result for a single item.
rank is Optional, None until assigned after sorting. -/
structure ItemScore where
  item_id : String
  mandatory : BlockScore
  preferred : BlockScore
  tasks : BlockScore
  final_color_score : ℚ
  final_percent_score : ℚ
  used_weights : Weights
  rank : Option Nat := none
deriving DecidableEq, Repr

/-! ### scoring.py -/

/-- _clamp (scoring.py): clamp an integer to [min_value, max_value]. -/
def clamp (value min_value max_value : Int) : Int :=
  max min_value (min max_value value)

/-- _determine_color (scoring.py): map a percentage to a color category. -/
def determine_color (percent : Int) : String :=
  if percent ≥ GREEN_THRESHOLD then "GREEN"
  else if percent ≥ YELLOW_THRESHOLD then "YELLOW"
  else "RED"

/-- _average (scoring.py): arithmetic mean, 0.0 for an empty collection. -/
def average (values : List ℚ) : ℚ :=
  if values = [] then 0 else values.sum / values.length

/-- The RequirementDetail built for one requirement inside the loop of
calculate_block_score (scoring.py): percentage clamped to [0, 100],
color derived from the clamped value, text fields copied. -/
def detailOf (req : Requirement) : RequirementDetail :=
  { name := req.name
    percent := clamp req.match_percent 0 100
    color := determine_color (clamp req.match_percent 0 100)
    evidence := req.evidence
    comment := req.difference_comment }

/-- The details list accumulated by the loop of calculate_block_score,
one entry per requirement in input order. -/
def blockDetails (reqs : List Requirement) : List RequirementDetail :=
  reqs.map detailOf

/-- green_percents accumulated by the loop: the clamped percentages of the
GREEN requirements, as floats, in input order. -/
def greenPercents (reqs : List Requirement) : List ℚ :=
  ((blockDetails reqs).filter (fun d => d.color == "GREEN")).map (fun d => (d.percent : ℚ))

/-- yellow_percents accumulated by the loop. -/
def yellowPercents (reqs : List Requirement) : List ℚ :=
  ((blockDetails reqs).filter (fun d => d.color == "YELLOW")).map (fun d => (d.percent : ℚ))

/-- red_percents accumulated by the loop. -/
def redPercents (reqs : List Requirement) : List ℚ :=
  ((blockDetails reqs).filter (fun d => d.color == "RED")).map (fun d => (d.percent : ℚ))

/-- The counter g of calculate_block_score: one increment per GREEN
requirement, so it equals the length of green_percents. -/
def gCount (reqs : List Requirement) : Nat := (greenPercents reqs).length

def yCount (reqs : List Requirement) : Nat := (yellowPercents reqs).length

def rCount (reqs : List Requirement) : Nat := (redPercents reqs).length

/-- n = g + y + r in calculate_block_score. -/
def nCount (reqs : List Requirement) : Nat := gCount reqs + yCount reqs + rCount reqs

/-- Phase 1 of calculate_block_score (scoring.py): ColorScore of a block.
Zero if there are no GREEN and no YELLOW items; quadratic-like form divided
by n*n for the mandatory block; linear form divided by n otherwise. -/
def colorScoreOf (reqs : List Requirement) (block_type : BlockType) : ℚ :=
  if gCount reqs + yCount reqs = 0 then 0
  else if block_type = BlockType.mandatory then
    (((gCount reqs : ℚ) + YELLOW_WEIGHT * (yCount reqs : ℚ)) * ((gCount reqs : ℚ) + (yCount reqs : ℚ))
        + RED_WEIGHT * (rCount reqs : ℚ)) / ((nCount reqs : ℚ) * (nCount reqs : ℚ))
  else
    ((gCount reqs : ℚ) + YELLOW_WEIGHT * (yCount reqs : ℚ) + RED_WEIGHT * (rCount reqs : ℚ))
      / (nCount reqs : ℚ)

/-- Phase 2 of calculate_block_score (scoring.py): PercentScore of a block.
Tier averages are normalised by 100 and combined linearly, then multiplied
by the ColorScore.  The source replaces a NaN or infinite result by 0.0;
exact rational arithmetic can produce neither, so that guard is the
identity here. -/
def percentScoreOf (reqs : List Requirement) (block_type : BlockType) : ℚ :=
  (average (greenPercents reqs) / 100
      + YELLOW_WEIGHT * (average (yellowPercents reqs) / 100)
      + RED_WEIGHT * (average (redPercents reqs) / 100))
    * colorScoreOf reqs block_type

/-- The zero BlockScore returned by calculate_block_score for an empty block
and in the defensive n == 0 guard (scoring.py). -/
def zeroBlockScore : BlockScore :=
  { color_score := 0, percent_score := 0, g := 0, y := 0, r := 0
    details := [], g_avg := 0, y_avg := 0, r_avg := 0 }

/-- calculate_block_score (scoring.py).  The single pass of the source that
builds details, per-tier counts and per-tier percentage lists is rendered
here by the map/filter definitions above, which produce the same lists in
the same order. -/
def calculate_block_score (requirements : List Requirement) (block_type : BlockType) :
    BlockScore :=
  if requirements.isEmpty then zeroBlockScore
  else if nCount requirements = 0 then zeroBlockScore
  else
    { color_score := colorScoreOf requirements block_type
      percent_score := percentScoreOf requirements block_type
      g := gCount requirements
      y := yCount requirements
      r := rCount requirements
      details := blockDetails requirements
      g_avg := average (greenPercents requirements)
      y_avg := average (yellowPercents requirements)
      r_avg := average (redPercents requirements) }

/-! ### weights.py -/

/-- redistribute_weights (weights.py): start from the configured defaults;
if mandatory is empty its weight becomes 0.0; if both optional blocks are
empty their weights are added onto mandatory; else a single empty optional
block donates its weight to the other optional block. -/
def redistribute_weights (mandatory preferred tasks : List Requirement) : Weights :=
  let w0 : Weights :=
    { mandatory := MANDATORY_WEIGHT, preferred := PREFERRED_WEIGHT, tasks := TASKS_WEIGHT }
  let w1 : Weights := if mandatory.isEmpty then { w0 with mandatory := 0 } else w0
  if preferred.isEmpty && tasks.isEmpty then
    { mandatory := w1.mandatory + w1.preferred + w1.tasks, preferred := 0, tasks := 0 }
  else if preferred.isEmpty then
    { w1 with tasks := w1.tasks + w1.preferred, preferred := 0 }
  else if tasks.isEmpty then
    { w1 with preferred := w1.preferred + w1.tasks, tasks := 0 }
  else
    w1

/-! ### ranking.py -/

/-- The per-item part of rank_items (ranking.py): block scores, effective
weights, aggregated final scores; rank left unassigned. -/
def scoreItem (item : ItemInput) : ItemScore :=
  let mandatory_score := calculate_block_score item.mandatory BlockType.mandatory
  let preferred_score := calculate_block_score item.preferred BlockType.preferred
  let tasks_score := calculate_block_score item.tasks BlockType.tasks
  let weights := redistribute_weights item.mandatory item.preferred item.tasks
  { item_id := item.item_id
    mandatory := mandatory_score
    preferred := preferred_score
    tasks := tasks_score
    final_color_score :=
      weights.mandatory * mandatory_score.color_score
        + weights.preferred * preferred_score.color_score
        + weights.tasks * tasks_score.color_score
    final_percent_score :=
      weights.mandatory * mandatory_score.percent_score
        + weights.preferred * preferred_score.percent_score
        + weights.tasks * tasks_score.percent_score
    used_weights := weights
    rank := none }

/-- _compare (ranking.py): old-style comparison function handed to
cmp_to_key.  A negative result places a before b in the sorted output. -/
def compareScores (a b : ItemScore) : Int :=
  let color_diff := b.final_color_score - a.final_color_score
  if |color_diff| > EPSILON then
    if color_diff > 0 then -1 else 1
  else
    let percent_diff := b.final_percent_score - a.final_percent_score
    if percent_diff > 0 then -1
    else if percent_diff < 0 then 1
    else 0

/-- Stable insertion step: a is placed before the first element it does not
compare greater than, so elements comparing equal keep input order. -/
def insertScore (a : ItemScore) : List ItemScore → List ItemScore
  | [] => [a]
  | b :: l => if compareScores a b ≤ 0 then a :: b :: l else b :: insertScore a l

/-- Model of scores.sort with key cmp_to_key of _compare (ranking.py):
a stable comparison sort.  For a comparator that induces a total preorder
this produces the unique stable sorted permutation, the same list the
stable sort of the source produces. -/
def sortScores : List ItemScore → List ItemScore
  | [] => []
  | a :: l => insertScore a (sortScores l)

/-- The final loop of rank_items (ranking.py): assign rank = 1, 2, 3, ...
to the sorted sequence. -/
def assignRanks (l : List ItemScore) : List ItemScore :=
  (List.enumFrom 1 l).map (fun p => { p.2 with rank := some p.1 })

/-- rank_items (ranking.py): score every item, sort with the comparator,
then assign ranks in order. -/
def rank_items (items : List ItemInput) : List ItemScore :=
  assignRanks (sortScores (items.map scoreItem))

/-! ### Basic lemmas about the scoring pipeline -/

lemma determine_color_cases (p : Int) :
    determine_color p = "GREEN" ∨ determine_color p = "YELLOW" ∨ determine_color p = "RED" := by
  unfold determine_color
  split_ifs <;> simp

lemma detailOf_color_cases (req : Requirement) :
    (detailOf req).color = "GREEN" ∨ (detailOf req).color = "YELLOW" ∨
      (detailOf req).color = "RED" := by
  exact determine_color_cases _

lemma clamp_nonneg (v : Int) : 0 ≤ clamp v 0 100 := by
  unfold clamp; omega

lemma clamp_le (v : Int) : clamp v 0 100 ≤ 100 := by
  unfold clamp; omega

/-- The three color filters partition any list of details whose colors are
among the three color strings. -/
lemma filter_colors_length (l : List RequirementDetail)
    (h : ∀ d ∈ l, d.color = "GREEN" ∨ d.color = "YELLOW" ∨ d.color = "RED") :
    (l.filter (fun d => d.color == "GREEN")).length
      + (l.filter (fun d => d.color == "YELLOW")).length
      + (l.filter (fun d => d.color == "RED")).length = l.length := by
  induction l with
  | nil => simp
  | cons d l ih =>
    have hd := h d (List.mem_cons_self d l)
    have hl : ∀ x ∈ l, x.color = "GREEN" ∨ x.color = "YELLOW" ∨ x.color = "RED" :=
      fun x hx => h x (List.mem_cons_of_mem d hx)
    have ihl := ih hl
    rcases hd with hc | hc | hc <;> simp [List.filter_cons, hc] <;> omega

/-- g + y + r equals the number of requirements. -/
lemma nCount_eq_length (reqs : List Requirement) : nCount reqs = reqs.length := by
  have h : ∀ d ∈ blockDetails reqs,
      d.color = "GREEN" ∨ d.color = "YELLOW" ∨ d.color = "RED" := by
    intro d hd
    rcases List.mem_map.1 hd with ⟨req, _, rfl⟩
    exact detailOf_color_cases req
  have := filter_colors_length (blockDetails reqs) h
  simpa [nCount, gCount, yCount, rCount, greenPercents, yellowPercents, redPercents,
    blockDetails] using this

/-- On a non-empty requirement list the defensive n == 0 guard of
calculate_block_score is dead and the returned record exposes the two
phase scores, the tier counts, the details and the tier averages. -/
lemma calculate_block_score_of_ne (reqs : List Requirement) (kind : BlockType)
    (h : reqs ≠ []) :
    calculate_block_score reqs kind =
      { color_score := colorScoreOf reqs kind
        percent_score := percentScoreOf reqs kind
        g := gCount reqs
        y := yCount reqs
        r := rCount reqs
        details := blockDetails reqs
        g_avg := average (greenPercents reqs)
        y_avg := average (yellowPercents reqs)
        r_avg := average (redPercents reqs) } := by
  unfold calculate_block_score
  rw [if_neg, if_neg]
  · rw [nCount_eq_length]
    exact fun hl => h (List.length_eq_zero.mp hl)
  · simp [List.isEmpty_iff, h]

lemma calculate_block_score_nil (kind : BlockType) :
    calculate_block_score [] kind = zeroBlockScore := rfl

/-! ### C4: redistribute_weights case analysis -/

/-- C4: redistribute_weights depends only on the emptiness of the three
requirement lists: an empty mandatory block gets weight 0; both optional
blocks empty move both optional weights (0.2 each) onto mandatory; a single
empty optional block donates its weight to the other optional block; and
with no empty optional block the optional weights keep their defaults.
In particular mandatory non-empty with only preferred empty yields
weights (1, 0, 0.4) and mandatory non-empty with both optional blocks
empty yields (1.4, 0, 0). -/
theorem C4_redistribute_cases (m p t : List Requirement) :
    redistribute_weights m p t =
      if p.isEmpty && t.isEmpty then
        { mandatory := (if m.isEmpty then 0 else 1) + 2/5, preferred := 0, tasks := 0 }
      else if p.isEmpty then
        { mandatory := if m.isEmpty then 0 else 1, preferred := 0, tasks := 2/5 }
      else if t.isEmpty then
        { mandatory := if m.isEmpty then 0 else 1, preferred := 2/5, tasks := 0 }
      else
        { mandatory := if m.isEmpty then 0 else 1, preferred := 1/5, tasks := 1/5 } := by
  cases m <;> cases p <;> cases t <;>
    simp [redistribute_weights, MANDATORY_WEIGHT, PREFERRED_WEIGHT, TASKS_WEIGHT] <;>
    norm_num

/-! ### C6: clamping and classification -/

/-- C6: every integer percentage is clamped to [0, 100] and then classified
totally: clamped values at least 70 are GREEN (High), clamped values in
[30, 70) are YELLOW (Partial), clamped values below 30 are RED (Low);
in particular 70 is GREEN, 69 and 30 are YELLOW, 29 is RED, and the
classification always returns one of the three categories. -/
theorem C6_classifier (p : Int) :
    (0 ≤ clamp p 0 100 ∧ clamp p 0 100 ≤ 100)
    ∧ (p < 0 → clamp p 0 100 = 0)
    ∧ (100 < p → clamp p 0 100 = 100)
    ∧ (0 ≤ p → p ≤ 100 → clamp p 0 100 = p)
    ∧ (70 ≤ clamp p 0 100 → determine_color (clamp p 0 100) = "GREEN")
    ∧ (30 ≤ clamp p 0 100 → clamp p 0 100 < 70 → determine_color (clamp p 0 100) = "YELLOW")
    ∧ (clamp p 0 100 < 30 → determine_color (clamp p 0 100) = "RED")
    ∧ (determine_color (clamp p 0 100) = "GREEN" ∨ determine_color (clamp p 0 100) = "YELLOW"
        ∨ determine_color (clamp p 0 100) = "RED")
    ∧ determine_color (clamp 70 0 100) = "GREEN"
    ∧ determine_color (clamp 69 0 100) = "YELLOW"
    ∧ determine_color (clamp 30 0 100) = "YELLOW"
    ∧ determine_color (clamp 29 0 100) = "RED" := by
  refine ⟨⟨clamp_nonneg p, clamp_le p⟩, ?_, ?_, ?_, ?_, ?_, ?_,
    determine_color_cases _, ?_, ?_, ?_, ?_⟩
  · intro h; unfold clamp; omega
  · intro h; unfold clamp; omega
  · intro h1 h2; unfold clamp; omega
  · intro h
    unfold determine_color GREEN_THRESHOLD
    rw [if_pos h]
  · intro h1 h2
    unfold determine_color GREEN_THRESHOLD YELLOW_THRESHOLD
    rw [if_neg (by omega), if_pos h1]
  · intro h
    unfold determine_color GREEN_THRESHOLD YELLOW_THRESHOLD
    rw [if_neg (by omega), if_neg (by omega)]
  · simp [determine_color, clamp, GREEN_THRESHOLD, YELLOW_THRESHOLD]
  · simp [determine_color, clamp, GREEN_THRESHOLD, YELLOW_THRESHOLD]
  · simp [determine_color, clamp, GREEN_THRESHOLD, YELLOW_THRESHOLD]
  · simp [determine_color, clamp, GREEN_THRESHOLD, YELLOW_THRESHOLD]

/-- Witness for C6 at the concrete input 70. -/
theorem C6_classifier_witness :
    determine_color (clamp 70 0 100) = "GREEN" :=
  (C6_classifier 70).2.2.2.2.1 (by unfold clamp; omega)

/-! ### C8: counts and details -/

/-- C8: the BlockScore satisfies g + y + r = length of the input, and its
details list has exactly one entry per input requirement, in input order,
carrying the clamped percent, the derived tier label and the copied name,
evidence and comment. -/
theorem C8_details (reqs : List Requirement) (kind : BlockType) (B : BlockScore)
    (hB : B = calculate_block_score reqs kind) :
    B.g + B.y + B.r = reqs.length
    ∧ B.details.length = reqs.length
    ∧ ∀ i : Nat, B.details[i]? = (reqs[i]?).map (fun req =>
        { name := req.name
          percent := clamp req.match_percent 0 100
          color := determine_color (clamp req.match_percent 0 100)
          evidence := req.evidence
          comment := req.difference_comment }) := by
  subst hB
  rcases eq_or_ne reqs [] with rfl | hne
  · exact ⟨rfl, rfl, fun i => by simp [calculate_block_score_nil, zeroBlockScore]⟩
  · rw [calculate_block_score_of_ne reqs kind hne]
    refine ⟨?_, ?_, ?_⟩
    · exact nCount_eq_length reqs
    · simp [blockDetails]
    · intro i
      show (blockDetails reqs)[i]? = _
      rw [blockDetails, List.getElem?_map]
      rfl

/-- Witness for C8 at a concrete one-requirement block. -/
theorem C8_details_witness :
    (calculate_block_score [⟨"a", 80, "", ""⟩] BlockType.mandatory).details[0]? =
      some { name := "a", percent := 80, color := "GREEN", evidence := "", comment := "" } := by
  have h := (C8_details [⟨"a", 80, "", ""⟩] BlockType.mandatory _ rfl).2.2 0
  rw [h]
  decide

/-! ### C2: the two Phase 1 formulas -/

/-- C2: on a block whose classification produced at least one High or
Partial requirement, color_score is the quadratic form
((g + 0.5 y)(g + y) + 0.01 r) / n^2 for the Mandatory block and the linear
form (g + 0.5 y + 0.01 r) / n for Preferred and Tasks, with n = g + y + r. -/
theorem C2_block_formulas (reqs : List Requirement) (kind : BlockType) (B : BlockScore)
    (hB : B = calculate_block_score reqs kind) (hgy : B.g + B.y ≠ 0) :
    (kind = BlockType.mandatory →
      B.color_score = (((B.g : ℚ) + (1/2) * (B.y : ℚ)) * ((B.g : ℚ) + (B.y : ℚ))
          + (1/100) * (B.r : ℚ)) / ((B.g : ℚ) + (B.y : ℚ) + (B.r : ℚ))^2)
    ∧ (kind ≠ BlockType.mandatory →
      B.color_score = ((B.g : ℚ) + (1/2) * (B.y : ℚ) + (1/100) * (B.r : ℚ))
          / ((B.g : ℚ) + (B.y : ℚ) + (B.r : ℚ))) := by
  subst hB
  rcases eq_or_ne reqs [] with rfl | hne
  · simp [calculate_block_score_nil, zeroBlockScore] at hgy
  · rw [calculate_block_score_of_ne reqs kind hne] at hgy ⊢
    simp only at hgy ⊢
    constructor
    · intro hk
      subst hk
      rw [colorScoreOf, if_neg hgy, if_pos rfl]
      simp only [YELLOW_WEIGHT, RED_WEIGHT, nCount]
      push_cast
      ring
    · intro hk
      rw [colorScoreOf, if_neg hgy, if_neg hk]
      simp only [YELLOW_WEIGHT, RED_WEIGHT, nCount]
      push_cast
      ring

/-- Witness for C2 at a concrete one-requirement mandatory block. -/
theorem C2_block_formulas_witness :
    (calculate_block_score [⟨"a", 80, "", ""⟩] BlockType.mandatory).color_score =
      ((((calculate_block_score [⟨"a", 80, "", ""⟩] BlockType.mandatory).g : ℚ)
            + (1/2) * ((calculate_block_score [⟨"a", 80, "", ""⟩] BlockType.mandatory).y : ℚ))
          * (((calculate_block_score [⟨"a", 80, "", ""⟩] BlockType.mandatory).g : ℚ)
            + ((calculate_block_score [⟨"a", 80, "", ""⟩] BlockType.mandatory).y : ℚ))
        + (1/100) * ((calculate_block_score [⟨"a", 80, "", ""⟩] BlockType.mandatory).r : ℚ))
        / (((calculate_block_score [⟨"a", 80, "", ""⟩] BlockType.mandatory).g : ℚ)
            + ((calculate_block_score [⟨"a", 80, "", ""⟩] BlockType.mandatory).y : ℚ)
            + ((calculate_block_score [⟨"a", 80, "", ""⟩] BlockType.mandatory).r : ℚ))^2 :=
  (C2_block_formulas [⟨"a", 80, "", ""⟩] BlockType.mandatory _ rfl (by decide)).1 rfl

/-- A block whose clamped percentages are all below the YELLOW threshold
classifies every requirement as RED, so g and y are both zero. -/
lemma allLow_gy_zero (reqs : List Requirement)
    (hlow : ∀ req ∈ reqs, clamp req.match_percent 0 100 < 30) :
    gCount reqs + yCount reqs = 0 := by
  have hcol : ∀ d ∈ blockDetails reqs, d.color = "RED" := by
    intro d hd
    rcases List.mem_map.1 hd with ⟨req, hreq, rfl⟩
    have h30 := hlow req hreq
    show determine_color (clamp req.match_percent 0 100) = "RED"
    unfold determine_color GREEN_THRESHOLD YELLOW_THRESHOLD
    rw [if_neg (by omega), if_neg (by omega)]
  have hgnil : (blockDetails reqs).filter (fun d => d.color == "GREEN") = [] := by
    rw [List.filter_eq_nil_iff]
    intro d hd
    simp [hcol d hd]
  have hynil : (blockDetails reqs).filter (fun d => d.color == "YELLOW") = [] := by
    rw [List.filter_eq_nil_iff]
    intro d hd
    simp [hcol d hd]
  simp [gCount, yCount, greenPercents, yellowPercents, hgnil, hynil]

/-! ### C5: degenerate inputs -/

/-- C5: an empty block returns the all-zero BlockScore with an empty detail
list; a non-empty all-Low block (every clamped percent below 30) has
color_score 0; percent_score always equals the tier-average linear form
multiplied by color_score, hence is 0 whenever color_score is 0.  In exact
rational arithmetic percent_score is always a finite value, so the source
guard replacing a non-finite value by 0.0 never fires. -/
theorem C5_degenerate (reqs : List Requirement) (kind : BlockType) (B : BlockScore)
    (hB : B = calculate_block_score reqs kind) :
    calculate_block_score [] kind =
      { color_score := 0, percent_score := 0, g := 0, y := 0, r := 0
        details := [], g_avg := 0, y_avg := 0, r_avg := 0 }
    ∧ (reqs ≠ [] → (∀ req ∈ reqs, clamp req.match_percent 0 100 < 30) →
        B.color_score = 0)
    ∧ B.percent_score
        = (B.g_avg / 100 + (1/2) * (B.y_avg / 100) + (1/100) * (B.r_avg / 100)) * B.color_score
    ∧ (B.color_score = 0 → B.percent_score = 0) := by
  subst hB
  have hform : (calculate_block_score reqs kind).percent_score
      = ((calculate_block_score reqs kind).g_avg / 100
          + (1/2) * ((calculate_block_score reqs kind).y_avg / 100)
          + (1/100) * ((calculate_block_score reqs kind).r_avg / 100))
        * (calculate_block_score reqs kind).color_score := by
    rcases eq_or_ne reqs [] with rfl | hne
    · rw [calculate_block_score_nil]
      show (0 : ℚ) = ((0 : ℚ)/100 + (1/2) * ((0 : ℚ)/100) + (1/100) * ((0 : ℚ)/100)) * 0
      ring
    · rw [calculate_block_score_of_ne reqs kind hne]
      show percentScoreOf reqs kind = _
      rw [percentScoreOf]
      simp only [YELLOW_WEIGHT, RED_WEIGHT]
  refine ⟨calculate_block_score_nil kind, ?_, hform, ?_⟩
  · intro hne hlow
    rw [calculate_block_score_of_ne reqs kind hne]
    show colorScoreOf reqs kind = 0
    rw [colorScoreOf, if_pos (allLow_gy_zero reqs hlow)]
  · intro h0
    rw [hform, h0, mul_zero]

/-- Witness for C5 at a concrete all-Low one-requirement block. -/
theorem C5_degenerate_witness :
    (calculate_block_score [⟨"a", 10, "", ""⟩] BlockType.preferred).color_score = 0 :=
  (C5_degenerate [⟨"a", 10, "", ""⟩] BlockType.preferred _ rfl).2.1 (by decide) (by decide)

/-! ### C7: bounds on the two scores -/

/-- Every percentage collected into a tier list is a clamped value,
so it lies in [0, 100]. -/
lemma tier_percents_bounds (reqs : List Requirement) (p : RequirementDetail → Bool) :
    ∀ x ∈ ((blockDetails reqs).filter p).map (fun d => (d.percent : ℚ)),
      0 ≤ x ∧ x ≤ 100 := by
  intro x hx
  rcases List.mem_map.1 hx with ⟨d, hd, rfl⟩
  have hd2 : d ∈ blockDetails reqs := List.mem_of_mem_filter hd
  rcases List.mem_map.1 hd2 with ⟨req, _, rfl⟩
  constructor
  · exact_mod_cast clamp_nonneg req.match_percent
  · exact_mod_cast clamp_le req.match_percent

lemma average_nonneg (l : List ℚ) (h : ∀ x ∈ l, 0 ≤ x) : 0 ≤ average l := by
  rw [average]
  split_ifs with hl
  · exact le_refl 0
  · exact div_nonneg (List.sum_nonneg h) (by positivity)

lemma sum_le_mul_length (l : List ℚ) (c : ℚ) (h : ∀ x ∈ l, x ≤ c) :
    l.sum ≤ c * l.length := by
  induction l with
  | nil => simp
  | cons a l ih =>
    have ha := h a (List.mem_cons_self a l)
    have ihl := ih fun x hx => h x (List.mem_cons_of_mem a hx)
    simp only [List.sum_cons, List.length_cons]
    push_cast
    linarith

lemma average_le (l : List ℚ) (c : ℚ) (hc : 0 ≤ c) (h : ∀ x ∈ l, x ≤ c) :
    average l ≤ c := by
  rw [average]
  split_ifs with hl
  · exact hc
  · have hpos : (0 : ℚ) < l.length := by
      have := List.length_pos.2 hl
      exact_mod_cast this
    rw [div_le_iff₀ hpos]
    simpa [mul_comm] using sum_le_mul_length l c h

lemma colorScoreOf_nonneg (reqs : List Requirement) (kind : BlockType) :
    0 ≤ colorScoreOf reqs kind := by
  rw [colorScoreOf]
  split_ifs with h1 h2
  · exact le_refl 0
  · simp only [YELLOW_WEIGHT, RED_WEIGHT]
    positivity
  · simp only [YELLOW_WEIGHT, RED_WEIGHT]
    positivity

lemma colorScoreOf_le_one (reqs : List Requirement) (kind : BlockType) :
    colorScoreOf reqs kind ≤ 1 := by
  rw [colorScoreOf]
  have hG : (0 : ℚ) ≤ (gCount reqs : ℚ) := by positivity
  have hY : (0 : ℚ) ≤ (yCount reqs : ℚ) := by positivity
  have hR : (0 : ℚ) ≤ (rCount reqs : ℚ) := by positivity
  have hn : (nCount reqs : ℚ) = (gCount reqs : ℚ) + (yCount reqs : ℚ) + (rCount reqs : ℚ) := by
    rw [nCount]; push_cast; ring
  split_ifs with h1 h2
  · exact zero_le_one
  · have hgy : 1 ≤ (gCount reqs : ℚ) + (yCount reqs : ℚ) := by
      have := Nat.one_le_iff_ne_zero.2 h1
      exact_mod_cast this
    rw [div_le_one (by nlinarith)]
    simp only [YELLOW_WEIGHT, RED_WEIGHT]
    rw [hn]
    nlinarith [mul_nonneg hY (add_nonneg hG hY), mul_nonneg hR hR,
      mul_le_mul_of_nonneg_right hgy hR]
  · have hgy : 1 ≤ (gCount reqs : ℚ) + (yCount reqs : ℚ) := by
      have := Nat.one_le_iff_ne_zero.2 h1
      exact_mod_cast this
    rw [div_le_one (by nlinarith)]
    simp only [YELLOW_WEIGHT, RED_WEIGHT]
    rw [hn]
    linarith

lemma percentScoreOf_nonneg (reqs : List Requirement) (kind : BlockType) :
    0 ≤ percentScoreOf reqs kind := by
  rw [percentScoreOf]
  simp only [YELLOW_WEIGHT, RED_WEIGHT]
  have hg := average_nonneg (greenPercents reqs)
    (fun x hx => (tier_percents_bounds reqs _ x hx).1)
  have hy := average_nonneg (yellowPercents reqs)
    (fun x hx => (tier_percents_bounds reqs _ x hx).1)
  have hr := average_nonneg (redPercents reqs)
    (fun x hx => (tier_percents_bounds reqs _ x hx).1)
  have hc := colorScoreOf_nonneg reqs kind
  positivity

lemma percentScoreOf_le (reqs : List Requirement) (kind : BlockType) :
    percentScoreOf reqs kind ≤ 151/100 := by
  rw [percentScoreOf]
  simp only [YELLOW_WEIGHT, RED_WEIGHT]
  have hg0 := average_nonneg (greenPercents reqs)
    (fun x hx => (tier_percents_bounds reqs _ x hx).1)
  have hy0 := average_nonneg (yellowPercents reqs)
    (fun x hx => (tier_percents_bounds reqs _ x hx).1)
  have hr0 := average_nonneg (redPercents reqs)
    (fun x hx => (tier_percents_bounds reqs _ x hx).1)
  have hg1 := average_le (greenPercents reqs) 100 (by norm_num)
    (fun x hx => (tier_percents_bounds reqs _ x hx).2)
  have hy1 := average_le (yellowPercents reqs) 100 (by norm_num)
    (fun x hx => (tier_percents_bounds reqs _ x hx).2)
  have hr1 := average_le (redPercents reqs) 100 (by norm_num)
    (fun x hx => (tier_percents_bounds reqs _ x hx).2)
  have hc0 := colorScoreOf_nonneg reqs kind
  have hc1 := colorScoreOf_le_one reqs kind
  have hfac : average (greenPercents reqs) / 100 + 1/2 * (average (yellowPercents reqs) / 100)
      + 1/100 * (average (redPercents reqs) / 100) ≤ 151/100 := by linarith
  have hfac0 : 0 ≤ average (greenPercents reqs) / 100
      + 1/2 * (average (yellowPercents reqs) / 100)
      + 1/100 * (average (redPercents reqs) / 100) := by linarith
  calc (average (greenPercents reqs) / 100 + 1/2 * (average (yellowPercents reqs) / 100)
        + 1/100 * (average (redPercents reqs) / 100)) * colorScoreOf reqs kind
      ≤ (151/100) * 1 := mul_le_mul hfac hc1 hc0 (by norm_num)
    _ = 151/100 := by norm_num

/-- C7 (amended): both scores are always nonnegative rationals (hence
finite); color_score is at most 1; percent_score is bounded by 1.51,
but can exceed 1. -/
theorem C7_score_bounds (reqs : List Requirement) (kind : BlockType) :
    0 ≤ (calculate_block_score reqs kind).color_score
    ∧ (calculate_block_score reqs kind).color_score ≤ 1
    ∧ 0 ≤ (calculate_block_score reqs kind).percent_score
    ∧ (calculate_block_score reqs kind).percent_score ≤ 151/100 := by
  rcases eq_or_ne reqs [] with rfl | hne
  · rw [calculate_block_score_nil]
    refine ⟨le_refl 0, zero_le_one, le_refl 0, by norm_num [zeroBlockScore]⟩
  · rw [calculate_block_score_of_ne reqs kind hne]
    exact ⟨colorScoreOf_nonneg reqs kind, colorScoreOf_le_one reqs kind,
      percentScoreOf_nonneg reqs kind, percentScoreOf_le reqs kind⟩

/-- Counterexample for C7 as stated: a Preferred block with percentages
100 and 69 has percent_score 807/800, strictly above 1. -/
theorem C7_counterexample :
    1 < (calculate_block_score [⟨"a", 100, "", ""⟩, ⟨"b", 69, "", ""⟩]
        BlockType.preferred).percent_score := by
  simp [calculate_block_score, percentScoreOf, colorScoreOf, nCount, gCount, yCount,
    rCount, greenPercents, yellowPercents, redPercents, blockDetails, detailOf, clamp,
    determine_color, GREEN_THRESHOLD, YELLOW_THRESHOLD, YELLOW_WEIGHT, RED_WEIGHT, average,
    List.filter_cons]
  norm_num

/-! ### Lemmas about the ranking pipeline -/

lemma insertScore_perm (a : ItemScore) (l : List ItemScore) :
    (insertScore a l).Perm (a :: l) := by
  induction l with
  | nil => exact List.Perm.refl _
  | cons b l ih =>
    rw [insertScore]
    split_ifs
    · exact List.Perm.refl _
    · exact (ih.cons b).trans (List.Perm.swap a b l)

lemma sortScores_perm (l : List ItemScore) : (sortScores l).Perm l := by
  induction l with
  | nil => exact List.Perm.refl _
  | cons a l ih => exact (insertScore_perm a (sortScores l)).trans (ih.cons a)

lemma assignRanks_map_rank (l : List ItemScore) (n : Nat) :
    ((List.enumFrom n l).map (fun p => ({ p.2 with rank := some p.1 } : ItemScore))).map
        (fun s => s.rank)
      = (List.range' n l.length).map some := by
  induction l generalizing n with
  | nil => simp [List.enumFrom]
  | cons a l ih => simp [List.enumFrom, List.range', ih]

lemma assignRanks_map_item_id (l : List ItemScore) (n : Nat) :
    ((List.enumFrom n l).map (fun p => ({ p.2 with rank := some p.1 } : ItemScore))).map
        (fun s => s.item_id)
      = l.map (fun s => s.item_id) := by
  induction l generalizing n with
  | nil => simp [List.enumFrom]
  | cons a l ih => simp [List.enumFrom, ih]

lemma mem_of_mem_enumFrom {p : Nat × ItemScore} (l : List ItemScore) (n : Nat)
    (h : p ∈ List.enumFrom n l) : p.2 ∈ l := by
  induction l generalizing n with
  | nil => simp [List.enumFrom] at h
  | cons a l ih =>
    rw [List.enumFrom] at h
    rcases List.mem_cons.1 h with rfl | h2
    · exact List.mem_cons_self a l
    · exact List.mem_cons_of_mem a (ih (n + 1) h2)

lemma rank_items_length (items : List ItemInput) :
    (rank_items items).length = items.length := by
  rw [rank_items, assignRanks, List.length_map, List.enumFrom_length,
    (sortScores_perm _).length_eq, List.length_map]

/-! ### C9: rank assignment -/

/-- C9: after sorting, rank_items assigns the ranks 1, 2, ..., k in order
to the k output items (no gaps, no duplicates), and the rank field of every
item produced by the scoring stage is still unset before this final step. -/
theorem C9_rank_assignment (items : List ItemInput) :
    (rank_items items).map (fun s => s.rank) = (List.range' 1 items.length).map some
    ∧ ∀ item : ItemInput, (scoreItem item).rank = none := by
  constructor
  · rw [rank_items, assignRanks, assignRanks_map_rank,
      (sortScores_perm _).length_eq, List.length_map]
  · intro item
    rfl

/-! ### C10: no item is dropped, duplicated or invented -/

/-- C10: rank_items returns exactly one ItemScore per input item, and the
multiset of output item_id values equals the multiset of input item_id
values (stated as a permutation of the id lists). -/
theorem C10_id_permutation (items : List ItemInput) :
    (rank_items items).length = items.length
    ∧ ((rank_items items).map (fun s => s.item_id)).Perm
        (items.map (fun it => it.item_id)) := by
  refine ⟨rank_items_length items, ?_⟩
  rw [rank_items, assignRanks, assignRanks_map_item_id]
  have h1 : ((sortScores (items.map scoreItem)).map (fun s => s.item_id)).Perm
      ((items.map scoreItem).map (fun s => s.item_id)) :=
    (sortScores_perm (items.map scoreItem)).map _
  refine h1.trans ?_
  rw [List.map_map]
  exact List.Perm.refl _

/-! ### C3: the sum of the effective weights -/

/-- The effective weights sum to 1.4 exactly when the mandatory block is
non-empty; an empty mandatory block loses its weight and the sum is 0.4. -/
lemma redistribute_weights_sum (m p t : List Requirement) :
    (redistribute_weights m p t).mandatory + (redistribute_weights m p t).preferred
      + (redistribute_weights m p t).tasks = if m.isEmpty then 2/5 else 7/5 := by
  cases m <;> cases p <;> cases t <;>
    simp [redistribute_weights, MANDATORY_WEIGHT, PREFERRED_WEIGHT, TASKS_WEIGHT] <;>
    norm_num

/-- The details list of a BlockScore is empty exactly when the input
requirement list is empty. -/
lemma calc_details_isEmpty (reqs : List Requirement) (kind : BlockType) :
    (calculate_block_score reqs kind).details.isEmpty = reqs.isEmpty := by
  rcases eq_or_ne reqs [] with rfl | hne
  · rfl
  · rw [calculate_block_score_of_ne reqs kind hne]
    show (blockDetails reqs).isEmpty = reqs.isEmpty
    cases reqs with
    | nil => exact absurd rfl hne
    | cons a l => rfl

/-- C3 (amended): for every item processed by rank_items the recorded
effective weights sum to the full budget 1.4 whenever the mandatory block
is non-empty; when the mandatory block is empty its weight is lost and the
sum is 0.4. -/
theorem C3_weights_sum (items : List ItemInput) (s : ItemScore)
    (hs : s ∈ rank_items items) :
    s.used_weights.mandatory + s.used_weights.preferred + s.used_weights.tasks
      = if s.mandatory.details.isEmpty then 2/5 else 7/5 := by
  rw [rank_items, assignRanks] at hs
  rcases List.mem_map.1 hs with ⟨q, hq, rfl⟩
  have h2 : q.2 ∈ sortScores (items.map scoreItem) := mem_of_mem_enumFrom _ _ hq
  have h3 : q.2 ∈ items.map scoreItem := ((sortScores_perm _).mem_iff).1 h2
  rcases List.mem_map.1 h3 with ⟨it, _, hit⟩
  rw [← hit]
  have hw : ({ scoreItem it with rank := some q.1 } : ItemScore).used_weights
      = redistribute_weights it.mandatory it.preferred it.tasks := rfl
  have hm : ({ scoreItem it with rank := some q.1 } : ItemScore).mandatory
      = calculate_block_score it.mandatory BlockType.mandatory := rfl
  rw [hw, hm, redistribute_weights_sum, calc_details_isEmpty]

/-- Input used by the C3 witness: a single item with a non-empty mandatory
block. -/
def witnessItem : ItemInput :=
  { item_id := "w", mandatory := [{ name := "m", match_percent := 90 }] }

/-- Witness for C3 on a concrete one-item ranking: the weights of its
single output record sum to 1.4. -/
theorem C3_weights_sum_witness :
    ({ scoreItem witnessItem with rank := some 1 } : ItemScore).used_weights.mandatory
      + ({ scoreItem witnessItem with rank := some 1 } : ItemScore).used_weights.preferred
      + ({ scoreItem witnessItem with rank := some 1 } : ItemScore).used_weights.tasks
      = 7/5 := by
  have hmem : ({ scoreItem witnessItem with rank := some 1 } : ItemScore)
      ∈ rank_items [witnessItem] :=
    List.mem_singleton_self _
  have h := C3_weights_sum [witnessItem] _ hmem
  rw [h]
  rw [show ({ scoreItem witnessItem with rank := some 1 } : ItemScore).mandatory.details.isEmpty
      = false from by decide]
  norm_num

/-- Counterexample for C3 as stated: an item whose mandatory block is empty
is processed with effective weights summing to 0.4, not 1.4. -/
def emptyMandItem : ItemInput :=
  { item_id := "e", preferred := [{ name := "p", match_percent := 80 }] }

theorem C3_counterexample :
    (rank_items [emptyMandItem]).map
        (fun s => s.used_weights.mandatory + s.used_weights.preferred + s.used_weights.tasks)
      = [2/5]
    ∧ (2/5 : ℚ) ≠ 7/5 := by
  constructor
  · show [(scoreItem emptyMandItem).used_weights.mandatory
        + (scoreItem emptyMandItem).used_weights.preferred
        + (scoreItem emptyMandItem).used_weights.tasks] = [2/5]
    rw [show (scoreItem emptyMandItem).used_weights
        = redistribute_weights emptyMandItem.mandatory emptyMandItem.preferred
            emptyMandItem.tasks from rfl]
    rw [redistribute_weights_sum]
    norm_num [emptyMandItem]
  · norm_num

/-! ### C1: direction of the final sort -/

/-- Failing input for C1: a two-item list where the first item has final
color score 1.4 and the second 0. -/
def highItem : ItemInput :=
  { item_id := "high", mandatory := [{ name := "m", match_percent := 100 }] }

def lowItem : ItemInput :=
  { item_id := "low", mandatory := [{ name := "m", match_percent := 0 }] }

/-- C1 fails on the code: the final_color_score of highItem exceeds that of
lowItem by far more than EPSILON, yet rank_items places lowItem first
(rank 1) and highItem second.  The comparator returns a negative value when
the SECOND argument has the larger score, so the sort orders ascending,
worst first, contradicting the claimed descending order (and the
documentation in the source itself that rank 1 is best). -/
theorem C1_sort_direction_bug :
    EPSILON < (scoreItem highItem).final_color_score - (scoreItem lowItem).final_color_score
    ∧ (rank_items [highItem, lowItem]).map (fun s => (s.item_id, s.rank))
        = [("low", some 1), ("high", some 2)] := by
  have hA : (scoreItem highItem).final_color_score = 7/5 := by
    show (redistribute_weights highItem.mandatory highItem.preferred highItem.tasks).mandatory
          * (calculate_block_score highItem.mandatory BlockType.mandatory).color_score
        + (redistribute_weights highItem.mandatory highItem.preferred highItem.tasks).preferred
          * (calculate_block_score highItem.preferred BlockType.preferred).color_score
        + (redistribute_weights highItem.mandatory highItem.preferred highItem.tasks).tasks
          * (calculate_block_score highItem.tasks BlockType.tasks).color_score = 7/5
    simp [highItem, redistribute_weights, MANDATORY_WEIGHT, PREFERRED_WEIGHT, TASKS_WEIGHT,
      calculate_block_score, colorScoreOf, percentScoreOf, nCount, gCount, yCount, rCount,
      greenPercents, yellowPercents, redPercents, blockDetails, detailOf, clamp,
      determine_color, GREEN_THRESHOLD, YELLOW_THRESHOLD, YELLOW_WEIGHT, RED_WEIGHT,
      average, List.filter_cons]
    norm_num
  have hB : (scoreItem lowItem).final_color_score = 0 := by
    show (redistribute_weights lowItem.mandatory lowItem.preferred lowItem.tasks).mandatory
          * (calculate_block_score lowItem.mandatory BlockType.mandatory).color_score
        + (redistribute_weights lowItem.mandatory lowItem.preferred lowItem.tasks).preferred
          * (calculate_block_score lowItem.preferred BlockType.preferred).color_score
        + (redistribute_weights lowItem.mandatory lowItem.preferred lowItem.tasks).tasks
          * (calculate_block_score lowItem.tasks BlockType.tasks).color_score = 0
    simp [lowItem, redistribute_weights, MANDATORY_WEIGHT, PREFERRED_WEIGHT, TASKS_WEIGHT,
      calculate_block_score, colorScoreOf, percentScoreOf, nCount, gCount, yCount, rCount,
      greenPercents, yellowPercents, redPercents, blockDetails, detailOf, clamp,
      determine_color, GREEN_THRESHOLD, YELLOW_THRESHOLD, YELLOW_WEIGHT, RED_WEIGHT,
      average, List.filter_cons]
  have hcmp : compareScores (scoreItem highItem) (scoreItem lowItem) = 1 := by
    simp only [compareScores, hA, hB]
    norm_num [EPSILON]
    intro h
    rw [show |(7/5 : ℚ)| = 7/5 from abs_of_nonneg (by norm_num)] at h
    norm_num at h
  have hle : ¬ (compareScores (scoreItem highItem) (scoreItem lowItem) ≤ 0) := by
    rw [hcmp]; omega
  have hsort : sortScores [scoreItem highItem, scoreItem lowItem]
      = [scoreItem lowItem, scoreItem highItem] := by
    show insertScore (scoreItem highItem) (insertScore (scoreItem lowItem) []) = _
    have h0 : insertScore (scoreItem lowItem) [] = [scoreItem lowItem] := rfl
    have h1 : insertScore (scoreItem highItem) [scoreItem lowItem]
        = if compareScores (scoreItem highItem) (scoreItem lowItem) ≤ 0
          then [scoreItem highItem, scoreItem lowItem]
          else scoreItem lowItem :: insertScore (scoreItem highItem) [] := rfl
    rw [h0, h1, if_neg hle]
    rfl
  constructor
  · rw [hA, hB, EPSILON]
    norm_num
  · rw [rank_items, show [highItem, lowItem].map scoreItem
        = [scoreItem highItem, scoreItem lowItem] from rfl, hsort, assignRanks]
    rfl

end RankingEngine
